import Mathlib

/-!
# jagpdf typeface layer: `TypefaceImpl`

A shallow embedding of `code/src/resources/typeman/typefaceimpl.cpp`.

The FreeType engine, the stream classes and the TrueType subsetter are
collaborators outside the file.  What they report for a given face is data
of the model (`FT_Face`, `FTOpenArgs`, `FT_Library`); a call that FreeType
answers with an error code is `Except.error code`.

Member functions that mutate the object take the object and return the
updated object; a C++ exception is `Except.error`.
-/

set_option maxRecDepth 100000

namespace Jag

/-! ## Data model -/

/-- Kind of face, the values of `m_type`. -/
inductive FaceType where
  | FACE_UNINITIALIZED
  | FACE_TRUE_TYPE
  | FACE_OPEN_TYPE_CFF
  | FACE_TYPE_1
  deriving DecidableEq, Repr

/-- Ways a member function of `TypefaceImpl` leaves by a failure, one
constructor per raising statement kind of the source file. -/
inductive Failure where
  /-- Raised by `CHECK_FT(err)` on a failing FreeType call. -/
  | ft_error (code : Nat)
  /-- Raised by `throw exception_invalid_input(msg_unknown_font_format())`. -/
  | unknown_font_format
  /-- Raised by `throw exception_invalid_input(msg_font_family_not_present())`. -/
  | font_family_not_present
  /-- Raised by `throw std::runtime_error("cannot read typeface")`. -/
  | cannot_read_typeface
  /-- Raised by `JAG_PRECONDITION(cond)` with a false condition. -/
  | precondition
  /-- Raised by `JAG_ASSERT(cond)` or `JAG_ASSERT_MSG(cond, msg)` with a false condition. -/
  | assertion
  /-- Raised by `JAG_INTERNAL_ERROR` (an unconditional fatal internal error). -/
  | internal_error
  /-- Raised by `JAG_TBD` (an unconditional fatal not-implemented failure). -/
  | tbd
  /-- A field of `Table<T>` read through `operator->` while the table is absent. -/
  | table_absent
  /-- A failure raised inside `truetype::TTFont` (constructor or `make_subset`). -/
  | ttfont (code : Nat)
  deriving DecidableEq, Repr

/-- FreeType error code carried by a failing engine call. -/
abbrev FT_Error := Nat

/-- One entry of `m_face->charmaps`, with the value `FT_Get_CMap_Format`
returns for it (`-1` when the charmap is not an sfnt cmap). -/
structure FT_CharMapRec where
  platform_id : Nat
  encoding_id : Nat
  cmap_format : Int
  deriving DecidableEq, Repr

/-- The fields of `m_face->glyph->metrics` the file reads after a load. -/
structure FT_Glyph_Metrics where
  height : Int
  horiAdvance : Int
  deriving DecidableEq, Repr

/-- The fields of the OS/2 table the file reads. -/
structure OS2Table where
  version : Nat
  xAvgCharWidth : Int
  usWeightClass : Nat
  usWidthClass : Nat
  fsType : Nat
  panose : List Nat
  sxHeight : Int
  sCapHeight : Int
  deriving DecidableEq, Repr

/-- The field of the `post` table the file reads (a 16.16 fixed point value). -/
structure PostscriptTable where
  italicAngle : Int
  deriving DecidableEq, Repr

/-- The fields of the PCLT table the file reads. -/
structure PCLTTable where
  xHeight : Nat
  CapHeight : Nat
  deriving DecidableEq, Repr

/-- Tags passed to `FT_Load_Sfnt_Table` (`FT_MAKE_TAG`). -/
inductive SfntTag where
  | glyf
  | CFF
  deriving DecidableEq, Repr

/-- What FreeType reports for an opened face (`FT_Face m_face`), restricted to
the queries the file makes. -/
structure FT_Face where
  /-- Result of `FT_IS_SFNT(face)`. -/
  is_sfnt : Bool
  /-- Result of `FT_IS_FIXED_WIDTH(face)`. -/
  is_fixed_width : Bool
  /-- Result of `FT_Load_Sfnt_Table(face, tag, 0, buffer, &length)`: the table bytes, or the error code. -/
  load_sfnt_table : SfntTag → Except FT_Error (List Nat)
  /-- Result of `FT_Select_Charmap(face, FT_ENCODING_UNICODE)`. -/
  select_charmap_unicode : Except FT_Error Unit
  units_per_EM : Int
  bbox_xMin : Int
  bbox_yMin : Int
  bbox_xMax : Int
  bbox_yMax : Int
  ascender : Int
  descender : Int
  max_advance_width : Int
  height : Int
  /-- The `face->num_charmaps` entries of `face->charmaps`. -/
  charmaps : List FT_CharMapRec
  /-- Result of `FT_Load_Glyph(face, gid, FT_LOAD_NO_SCALE)`: the glyph slot metrics, or the error code. -/
  load_glyph : Nat → Except FT_Error FT_Glyph_Metrics
  /-- Result of `FT_Load_Char(face, code, FT_LOAD_NO_SCALE)`: the glyph slot metrics, or the error code. -/
  load_char : Nat → Except FT_Error FT_Glyph_Metrics
  /-- Result of `FT_Get_Char_Index(face, codepoint)`; glyph index 0 is the missing glyph. -/
  get_char_index : Int → Nat
  /-- Result of `FT_Get_Sfnt_Table` for the OS/2 table, behind `Table<OS2Table>`. -/
  os2 : Option OS2Table
  /-- Result of `FT_Get_Sfnt_Table` for the post table, behind `Table<PostscriptTable>`. -/
  post : Option PostscriptTable
  /-- Result of `FT_Get_Sfnt_Table` for the PCLT table, behind `Table<PCLTTable>`. -/
  pclt : Option PCLTTable
  /-- Field `face->family_name`, `none` for a null pointer. -/
  family_name : Option String
  /-- Result of `FT_Get_Kerning(face, left, right, FT_KERNING_UNSCALED, &delta)`: `delta.x`, or the error code. -/
  get_kerning : Nat → Nat → Except FT_Error Int

/-- One record of `FTOpenArgs`: the bytes the stream yields from offset 0 and
the size `FTOpenArgs::data_size` declares for it. -/
structure StreamRecord where
  data : List Nat
  size : Nat
  deriving DecidableEq, Repr

/-- The open arguments held in `m_open_args`. -/
structure FTOpenArgs where
  records : List StreamRecord
  deriving DecidableEq, Repr

/-- An input stream (`IStreamInput`): the bytes still to be read. -/
abbrev IStreamInput := List Nat

/-- The record `TypefaceMetrics`. -/
structure TypefaceMetrics where
  units_per_EM : Int
  bbox_xmin : Int
  bbox_ymin : Int
  bbox_xmax : Int
  bbox_ymax : Int
  ascent : Int
  descent : Int
  max_width : Int
  baseline_distance : Int
  missing_width : Int
  avg_width : Int
  cap_height : Int
  xheight : Int
  deriving DecidableEq, Repr

/-- The result of `memset(&m_metrics, 0, sizeof(TypefaceMetrics))`. -/
def TypefaceMetrics.zero : TypefaceMetrics :=
  { units_per_EM := 0, bbox_xmin := 0, bbox_ymin := 0, bbox_xmax := 0, bbox_ymax := 0,
    ascent := 0, descent := 0, max_width := 0, baseline_distance := 0, missing_width := 0,
    avg_width := 0, cap_height := 0, xheight := 0 }

/-- The data members of `TypefaceImpl`.  `m_md5` holds the cells appended to the
MD5 state (the digest is a function of them); a cell is `none` while the byte of
the stack buffer it was copied from has never been written.  `m_italic_angle`
keeps the 16.16 value that `double_from_16_16` divides by 65536. -/
structure TypefaceImpl where
  m_open_args : FTOpenArgs
  m_face : FT_Face
  m_type : FaceType
  m_can_embed : Bool
  m_can_subset : Bool
  m_metrics : TypefaceMetrics
  m_fixed_width : Bool
  m_weight_class : Nat
  m_width_class : Nat
  m_italic_angle : Int
  m_panose : List Nat
  m_md5 : List (Option Nat)

/-! ## Error raising helpers of the code base -/

/-- Modelled from the spec: the `JAG_PRECONDITION` assertion of `core/errlib`
(not part of the file); a false condition is a precondition violation that
propagates to the caller. -/
def JAG_PRECONDITION (cond : Bool) : Except Failure Unit :=
  if cond then .ok () else .error .precondition

/-- Modelled from the spec: the `JAG_ASSERT` and `JAG_ASSERT_MSG` assertions of
`core/errlib` (not part of the file); a false condition is an assertion
failure. -/
def JAG_ASSERT (cond : Bool) : Except Failure Unit :=
  if cond then .ok () else .error .assertion

/-- Modelled from the spec: the `JAG_INTERNAL_ERROR` statement of `core/errlib`
(not part of the file); an unconditional fatal internal error. -/
def JAG_INTERNAL_ERROR {α : Type} : Except Failure α :=
  .error .internal_error

/-- Modelled from the spec: the `JAG_TBD` statement of `core/errlib` (not part
of the file); an unconditional fatal not-implemented failure. -/
def JAG_TBD {α : Type} : Except Failure α :=
  .error .tbd

/-- Modelled from the spec: `CHECK_FT` of `core/errlib` (not part of the file);
a failing engine call is raised to the caller with its code. -/
def CHECK_FT {α : Type} (r : Except FT_Error α) : Except Failure α :=
  match r with
  | .ok a => .ok a
  | .error code => .error (.ft_error code)

/-- Modelled from the spec: `Table<T>::operator->` of `truetypetable.h` (not
part of the file); reading a field of an absent table fails. -/
def Table.get {α : Type} (t : Option α) : Except Failure α :=
  match t with
  | some a => .ok a
  | none => .error .table_absent

/-- Member function `Table<T>::exists()`. -/
def Table.exists {α : Type} (t : Option α) : Bool :=
  t.isSome

/-! ## Machine integers -/

/-- Conversion of an `int` to a 32-bit unsigned type: `unsigned int`, `UInt`, and
the byte count parameter of `IStreamInput::read` (taken as 32 bits wide; a wider
count type changes nothing for streams shorter than 2^31 bytes). -/
def to_unsigned (v : Int) : Nat :=
  (v % 4294967296).toNat

/-- Conversion of an unsigned value to `int`, as in `static_cast<int>(read)`. -/
def to_int (v : Nat) : Int :=
  if v % 4294967296 < 2147483648 then ((v % 4294967296 : Nat) : Int)
  else ((v % 4294967296 : Nat) : Int) - 4294967296

/-- The four bytes that `*jag_reinterpret_cast<unsigned int*>(buffer) = v`
stores on a little-endian host: the value modulo 2^32, low byte first. -/
def store_uint (v : Int) : List Nat :=
  [to_unsigned v % 256, to_unsigned v / 256 % 256,
   to_unsigned v / 65536 % 256, to_unsigned v / 16777216 % 256]

/-- A write of `cells` into the buffer `buf` at offset `off`; cells that would
land past the end of the buffer are dropped. -/
def write_at (buf : List (Option Nat)) (off : Nat) (cells : List (Option Nat)) :
    List (Option Nat) :=
  (buf.take off ++ (cells ++ buf.drop (off + cells.length))).take buf.length

/-- The effect of `memset(buffer + off, val, count)`. -/
def memset (buf : List (Option Nat)) (off : Nat) (val : Nat) (count : Nat) :
    List (Option Nat) :=
  write_at buf off (List.replicate count (some val))

/-! ## Member functions -/

section Members

-- The option bits `EXTRACT_CFF` and `DONT_INCLUDE_CMAP` are constants of a header
-- outside the file; the member functions that test them take their values as
-- parameters.
variable (EXTRACT_CFF DONT_INCLUDE_CMAP : Nat)
-- The work of `truetype::TTFont` (parse the font program, then `make_subset`):
-- the subsetted font program, or the code of the failure raised inside it.
variable (make_subset : IStreamInput → List Nat → Bool → Except Nat IStreamInput)

/-- Member function `TypefaceImpl::num_streams`. -/
def num_streams (s : TypefaceImpl) : Int :=
  (s.m_open_args.records.length : Int)

/-- Member function `FTOpenArgs::get_args(index)` for an index in range. -/
def get_args (a : FTOpenArgs) (index : Int) : StreamRecord :=
  a.records.getD index.toNat { data := [], size := 0 }

/-- Member function `TypefaceImpl::data_size`. -/
def data_size (s : TypefaceImpl) (index : Int) : Except Failure Int :=
  match JAG_PRECONDITION (decide (index ≥ 0) && decide (index < num_streams s)) with
  | .error e => .error e
  | .ok _ => .ok ((get_args s.m_open_args index).size : Int)

/-- Member function `TypefaceImpl::font_program`. -/
def font_program (s : TypefaceImpl) (index : Int) (options : Nat) :
    Except Failure IStreamInput :=
  match JAG_PRECONDITION (decide (index ≥ 0) && decide (index < num_streams s)) with
  | .error e => .error e
  | .ok _ =>
    if options &&& EXTRACT_CFF ≠ 0 then
      match JAG_ASSERT (decide (s.m_type = .FACE_OPEN_TYPE_CFF)) with
      | .error e => .error e
      | .ok _ =>
        match CHECK_FT (s.m_face.load_sfnt_table .CFF) with
        | .error e => .error e
        | .ok _ =>
          match CHECK_FT (s.m_face.load_sfnt_table .CFF) with
          | .error e => .error e
          | .ok cff_table => .ok cff_table
    else
      .ok (get_args s.m_open_args index).data

/-- Member function `TypefaceImpl::calculate_hash`.  The stack buffer starts
with 1024 unwritten cells; `data_size(0)`, called twice in the source with the
same result, is bound once. -/
def calculate_hash (s : TypefaceImpl) : Except Failure TypefaceImpl :=
  match data_size s 0 with
  | .error e => .error e
  | .ok n =>
    let buff_size : Int := 1024
    let size : Int := min n buff_size
    let buffer0 : List (Option Nat) := List.replicate 1024 none
    let buffer1 :=
      if size < buff_size then memset buffer0 size.toNat 0 (buff_size - size).toNat
      else buffer0
    let buffer2 := write_at buffer1 0 ((store_uint n).map some)
    let size : Int := size - 4
    match font_program EXTRACT_CFF s 0 0 with
    | .error e => .error e
    | .ok stream =>
      let got := stream.take (to_unsigned size)
      let buffer3 := write_at buffer2 4 (got.map some)
      if size ≠ to_int got.length then .error .cannot_read_typeface
      else .ok { s with m_md5 := buffer3 }

/-- The table length `FT_Load_Sfnt_Table(face, tag, 0, 0, &table_len)` leaves in
`table_len`, which starts at `table_len0` and is written on success only. -/
def probe_table_len (face : FT_Face) (tag : SfntTag) (table_len0 : Nat) : Nat :=
  match face.load_sfnt_table tag with
  | .ok bytes => bytes.length
  | .error _ => table_len0

/-- Member function `TypefaceImpl::detect_type`. -/
def detect_type (s : TypefaceImpl) : Except Failure TypefaceImpl :=
  let probed : Except Failure TypefaceImpl :=
    if s.m_face.is_sfnt then
      let table_len := probe_table_len s.m_face .glyf 0
      let typed : Except Failure TypefaceImpl :=
        if table_len ≠ 0 then .ok { s with m_type := .FACE_TRUE_TYPE }
        else
          let table_len := probe_table_len s.m_face .CFF table_len
          let s1 := if table_len ≠ 0 then { s with m_type := .FACE_OPEN_TYPE_CFF } else s
          match JAG_ASSERT (decide (table_len ≠ 0)) with
          | .error e => .error e
          | .ok _ => .ok s1
      match typed with
      | .error e => .error e
      | .ok s1 =>
        if s1.m_type = .FACE_TRUE_TYPE ∨ s1.m_type = .FACE_OPEN_TYPE_CFF then
          match CHECK_FT s1.m_face.select_charmap_unicode with
          | .error e => .error e
          | .ok _ => .ok s1
        else .ok s1
    else .ok s
  match probed with
  | .error e => .error e
  | .ok s1 =>
    if s1.m_type = .FACE_UNINITIALIZED then .error .unknown_font_format
    else .ok s1

/-- The charmap loop of `preflight`: `true` when the loop reaches
`m_can_subset = true; break;`. -/
def charmap_loop : List FT_CharMapRec → Bool
  | [] => false
  | chmap :: rest =>
    if (chmap.platform_id = 3 ∧ chmap.encoding_id = 1) ∨ chmap.platform_id = 0 then
      if 4 = chmap.cmap_format then true
      else charmap_loop rest
    else charmap_loop rest

/-- The `case FACE_TRUE_TYPE: case FACE_OPEN_TYPE_CFF:` block of `preflight`;
`m_face` is not assigned in it and is read from the entry state. -/
def preflight_sfnt (s : TypefaceImpl) : Except Failure TypefaceImpl :=
  let face := s.m_face
  match Table.get face.os2 with
  | .error e => .error e
  | .ok os2 =>
    let s1 :=
      if os2.fsType &&& 0x8 ≠ 0 ∨ os2.fsType &&& 0x4 ≠ 0 ∨ ¬ (os2.fsType &&& 0x2 ≠ 0) then
        { s with m_can_embed := true }
      else s
    let s2 :=
      if ¬ (os2.fsType &&& 0x100 ≠ 0) then
        if charmap_loop face.charmaps then { s1 with m_can_subset := true } else s1
      else s1
    let m0 := { s2.m_metrics with avg_width := os2.xAvgCharWidth, cap_height := 0, xheight := 0 }
    let m1 : TypefaceMetrics :=
      if os2.version ≥ 2 then
        { m0 with cap_height := os2.sCapHeight, xheight := os2.sxHeight }
      else
        if Table.exists face.pclt then
          match face.pclt with
          | some pclt => { m0 with cap_height := (pclt.CapHeight : Int), xheight := (pclt.xHeight : Int) }
          | none => m0
        else
          let cap : Int :=
            match face.load_char 72 with
            | .ok glyph => glyph.height
            | .error _ => m0.ascent
          let m := { m0 with cap_height := cap }
          match face.load_char 120 with
          | .ok glyph => { m with xheight := glyph.height }
          | .error _ => m
    match Table.get face.post with
    | .error e => .error e
    | .ok ps =>
      .ok { s2 with
            m_metrics := m1
            m_weight_class := os2.usWeightClass
            m_width_class := os2.usWidthClass
            m_italic_angle := ps.italicAngle
            m_panose := os2.panose }

/-- Member function `TypefaceImpl::preflight`; `m_face` is not assigned in it and is read from
the entry state. -/
def preflight (s : TypefaceImpl) : Except Failure TypefaceImpl :=
  match JAG_PRECONDITION (decide (s.m_type ≠ .FACE_UNINITIALIZED)) with
  | .error e => .error e
  | .ok _ =>
    let face := s.m_face
    let m : TypefaceMetrics :=
      { TypefaceMetrics.zero with
        units_per_EM := face.units_per_EM
        bbox_xmin := face.bbox_xMin
        bbox_ymin := face.bbox_yMin
        bbox_xmax := face.bbox_xMax
        bbox_ymax := face.bbox_yMax
        ascent := face.ascender
        descent := face.descender
        max_width := face.max_advance_width
        baseline_distance := face.height }
    let s1 := { s with m_metrics := m, m_fixed_width := face.is_fixed_width }
    match CHECK_FT (face.load_glyph 0) with
    | .error e => .error e
    | .ok glyph =>
      let s2 := { s1 with m_metrics := { s1.m_metrics with missing_width := glyph.horiAdvance } }
      let switched : Except Failure TypefaceImpl :=
        match s2.m_type with
        | .FACE_TRUE_TYPE => preflight_sfnt s2
        | .FACE_OPEN_TYPE_CFF => preflight_sfnt s2
        | _ => .ok s2
      match switched with
      | .error e => .error e
      | .ok s3 =>
        let s4 := if s3.m_type = .FACE_OPEN_TYPE_CFF then { s3 with m_can_subset := false } else s3
        let s5 :=
          if s4.m_type = .FACE_TYPE_1 then { s4 with m_can_subset := false, m_can_embed := false }
          else s4
        if face.family_name.isNone then .error .font_family_not_present
        else .ok s5

/-- Member function `TypefaceImpl::subset_font_program`; `make_subset` stands for the work of
`truetype::TTFont` on the font program, the codepoints and `include_cmap`. -/
def subset_font_program (s : TypefaceImpl) (codepoints : List Nat) (options : Nat) :
    Except Failure IStreamInput :=
  match JAG_PRECONDITION s.m_can_subset with
  | .error e => .error e
  | .ok _ =>
    if FaceType.FACE_TRUE_TYPE = s.m_type then
      match font_program EXTRACT_CFF s 0 options with
      | .error e => .error e
      | .ok font_prg =>
        let include_cmap : Bool := !(decide (options &&& DONT_INCLUDE_CMAP ≠ 0))
        match make_subset font_prg codepoints include_cmap with
        | .error code => .error (.ttfont code)
        | .ok mem_out => .ok mem_out
    else JAG_INTERNAL_ERROR

/-- Member function `TypefaceImpl::codepoint_to_gid`; the result is the `FT_UInt` glyph index
converted to `Int`. -/
def codepoint_to_gid (s : TypefaceImpl) (codepoint : Int) : Except Failure Int :=
  match s.m_type with
  | .FACE_TRUE_TYPE => .ok (to_int (s.m_face.get_char_index codepoint % 4294967296))
  | .FACE_OPEN_TYPE_CFF => .ok (to_int (s.m_face.get_char_index codepoint % 4294967296))
  | _ => JAG_TBD

/-- Member function `TypefaceImpl::gid_horizontal_advance`. -/
def gid_horizontal_advance (s : TypefaceImpl) (gid : Nat) : Except Failure Int :=
  match CHECK_FT (s.m_face.load_glyph gid) with
  | .error e => .error e
  | .ok glyph => .ok glyph.horiAdvance

/-- Member function `TypefaceImpl::char_horizontal_advance`. -/
def char_horizontal_advance (s : TypefaceImpl) (codepoint : Int) : Except Failure Int :=
  match s.m_type with
  | .FACE_OPEN_TYPE_CFF =>
    gid_horizontal_advance s (s.m_face.get_char_index codepoint % 4294967296)
  | .FACE_TRUE_TYPE =>
    gid_horizontal_advance s (s.m_face.get_char_index codepoint % 4294967296)
  | _ => JAG_TBD

/-- Member function `TypefaceImpl::kerning_gids`. -/
def kerning_gids (s : TypefaceImpl) (left right : Nat) : Except Failure Int :=
  CHECK_FT (s.m_face.get_kerning left right)

/-- What the FreeType library answers to the two calls of the constructor. -/
structure FT_Library where
  /-- Result of `FT_Open_Face(ftlib, args(0), 0, &m_face)`. -/
  open_face : Except FT_Error FT_Face
  /-- Result of `FT_Attach_Stream(m_face, args(1))`. -/
  attach_stream : Except FT_Error Unit

/-- The steps of the constructor body, in the order they are entered. -/
inductive CtorStep where
  | FT_Open_Face
  | FT_Attach_Stream
  | calculate_hash
  | detect_type
  | preflight
  deriving DecidableEq, Repr

/-- The object as the member initializer list leaves it, once the face is open. -/
def TypefaceImpl.members_init (args : FTOpenArgs) (face : FT_Face) : TypefaceImpl :=
  { m_open_args := args, m_face := face, m_type := .FACE_UNINITIALIZED,
    m_can_embed := false, m_can_subset := false,
    m_metrics := TypefaceMetrics.zero, m_fixed_width := false,
    m_weight_class := 0, m_width_class := 0, m_italic_angle := 0,
    m_panose := [], m_md5 := [] }

/-- The statements of the constructor from `calculate_hash()` on, with the
steps entered so far in `log`. -/
def TypefaceImpl.ctor_body (log : List CtorStep) (s : TypefaceImpl) :
    List CtorStep × Except Failure TypefaceImpl :=
  match calculate_hash EXTRACT_CFF s with
  | .error e => (log ++ [.calculate_hash], .error e)
  | .ok s1 =>
    match detect_type s1 with
    | .error e => (log ++ [.calculate_hash, .detect_type], .error e)
    | .ok s2 =>
      (log ++ [.calculate_hash, .detect_type, .preflight], preflight s2)

/-- The constructor `TypefaceImpl::TypefaceImpl`, with the list of the steps it
entered.  The closing `JAG_POSTCONDITION(m_face)` holds whenever the face was
opened and is left out. -/
def TypefaceImpl.ctor_steps (ftlib : FT_Library) (args : FTOpenArgs) :
    List CtorStep × Except Failure TypefaceImpl :=
  match CHECK_FT ftlib.open_face with
  | .error e => ([.FT_Open_Face], .error e)
  | .ok face =>
    let s := TypefaceImpl.members_init args face
    if 2 = args.records.length then
      match CHECK_FT ftlib.attach_stream with
      | .error e => ([.FT_Open_Face, .FT_Attach_Stream], .error e)
      | .ok _ => TypefaceImpl.ctor_body EXTRACT_CFF [.FT_Open_Face, .FT_Attach_Stream] s
    else TypefaceImpl.ctor_body EXTRACT_CFF [.FT_Open_Face] s

/-- The constructor `TypefaceImpl::TypefaceImpl`: the object, or the failure
that leaves no object. -/
def TypefaceImpl.ctor (ftlib : FT_Library) (args : FTOpenArgs) :
    Except Failure TypefaceImpl :=
  (TypefaceImpl.ctor_steps EXTRACT_CFF ftlib args).2

end Members

/-- The cap height and x height the sfnt block of `preflight` leaves in the
metrics, told from the face: OS/2 fields from version 2 on, else the PCLT
fields when the table exists, else the probe glyphs for `H` (code 72) and `x`
(code 120). -/
def HeightsFrom (face : FT_Face) (os2 : OS2Table) (ascent cap xh : Int) : Prop :=
  (os2.version ≥ 2 → cap = os2.sCapHeight ∧ xh = os2.sxHeight) ∧
  (¬ os2.version ≥ 2 → ∀ pclt, face.pclt = some pclt →
    cap = (pclt.CapHeight : Int) ∧ xh = (pclt.xHeight : Int)) ∧
  (¬ os2.version ≥ 2 → face.pclt = none →
    cap = (match face.load_char 72 with
           | .ok glyph => glyph.height
           | .error _ => ascent) ∧
    xh = (match face.load_char 120 with
          | .ok glyph => glyph.height
          | .error _ => 0))

/-- The buffer of the content fingerprint in the words of the specification:
the declared size of stream 0 as four bytes, then the first 1020 bytes of
stream 0 from offset 0, zero padded when the stream is shorter. -/
def fingerprint_buffer_spec (n : Nat) (data : List Nat) : List (Option Nat) :=
  (store_uint n ++ (data.take 1020 ++ List.replicate (1020 - (data.take 1020).length) 0)).map some


/-! ## Sample inputs -/

/-- A TrueType face: sfnt with a `glyf` table, a Macintosh charmap and a
Windows Unicode format 4 charmap, OS/2 version 1 with `fsType` 0, no PCLT
table; the glyph for `H` loads, the glyph for `x` does not; glyphs 0 to 2
load, and codepoint 8364 is mapped to glyph 7, which does not load. -/
def sampleFace : FT_Face :=
  { is_sfnt := true, is_fixed_width := false,
    load_sfnt_table := fun tag =>
      match tag with
      | .glyf => .ok [0, 1, 2]
      | .CFF => .error 142,
    select_charmap_unicode := .ok (),
    units_per_EM := 2048, bbox_xMin := -100, bbox_yMin := -400,
    bbox_xMax := 2000, bbox_yMax := 1900,
    ascender := 1854, descender := -434, max_advance_width := 2100, height := 2355,
    charmaps := [{ platform_id := 1, encoding_id := 0, cmap_format := 0 },
                 { platform_id := 3, encoding_id := 1, cmap_format := 4 }],
    load_glyph := fun gid =>
      if gid < 3 then .ok { height := 1400 + gid, horiAdvance := 1000 + gid } else .error 16,
    load_char := fun c => if c = 72 then .ok { height := 1466, horiAdvance := 1479 } else .error 16,
    get_char_index := fun c =>
      if c = 72 then 1 else if c = 120 then 2 else if c = 8364 then 7 else 0,
    os2 := some { version := 1, xAvgCharWidth := 904, usWeightClass := 400, usWidthClass := 5,
                  fsType := 0, panose := [2, 11, 6, 4, 2, 2, 2, 2, 2, 4],
                  sxHeight := 1062, sCapHeight := 1467 },
    post := some { italicAngle := 0 },
    pclt := none,
    family_name := some "Sample",
    get_kerning := fun _ _ => .ok 0 }

/-- Open arguments with one stream of ten bytes. -/
def sampleArgs : FTOpenArgs :=
  { records := [{ data := [1, 2, 3, 4, 5, 6, 7, 8, 9, 10], size := 10 }] }

/-- The engine opening `sampleFace`. -/
def sampleLib : FT_Library :=
  { open_face := .ok sampleFace, attach_stream := .ok () }

/-- The object the constructor builds from `sampleLib` and `sampleArgs`. -/
def sampleTypeface : TypefaceImpl :=
  { m_open_args := sampleArgs, m_face := sampleFace, m_type := .FACE_TRUE_TYPE,
    m_can_embed := true, m_can_subset := true,
    m_metrics :=
      { units_per_EM := 2048, bbox_xmin := -100, bbox_ymin := -400, bbox_xmax := 2000,
        bbox_ymax := 1900, ascent := 1854, descent := -434, max_width := 2100,
        baseline_distance := 2355, missing_width := 1000, avg_width := 904,
        cap_height := 1466, xheight := 0 },
    m_fixed_width := false, m_weight_class := 400, m_width_class := 5,
    m_italic_angle := 0, m_panose := [2, 11, 6, 4, 2, 2, 2, 2, 2, 4],
    m_md5 := [some 10, some 0, some 0, some 0, some 1, some 2, some 3, some 4, some 5, some 6]
      ++ List.replicate 1014 (some 0) }


/-- An OpenType-CFF face: `sampleFace` without a `glyf` table and with a
`CFF ` table. -/
def cffFace : FT_Face :=
  { sampleFace with
    load_sfnt_table := fun tag =>
      match tag with
      | .glyf => .error 142
      | .CFF => .ok [1, 0, 4, 1] }

/-- The engine opening `cffFace`. -/
def cffLib : FT_Library :=
  { open_face := .ok cffFace, attach_stream := .ok () }

/-- The object the constructor builds from `cffLib` and `sampleArgs`. -/
def cffTypeface : TypefaceImpl :=
  { sampleTypeface with
    m_face := cffFace, m_type := .FACE_OPEN_TYPE_CFF, m_can_subset := false }

/-- A face that is not an sfnt container. -/
def nonSfntFace : FT_Face :=
  { sampleFace with is_sfnt := false }

/-- Open arguments whose stream 0 declares 2000 bytes and yields three. -/
def shortReadArgs : FTOpenArgs :=
  { records := [{ data := [1, 2, 3], size := 2000 }] }

/-- The engine opening `nonSfntFace`. -/
def nonSfntLib : FT_Library :=
  { open_face := .ok nonSfntFace, attach_stream := .ok () }

/-- A subsetter stand-in that returns the font program unchanged. -/
def sampleSubsetter : IStreamInput → List Nat → Bool → Except Nat IStreamInput :=
  fun font_prg _ _ => .ok font_prg

/-! ## Auxiliary lemmas -/

theorem land_two_pow_ne_zero_iff (x k : Nat) : x &&& 2 ^ k ≠ 0 ↔ x.testBit k = true := by
  constructor
  · intro h
    by_contra hb
    apply h
    apply Nat.eq_of_testBit_eq
    intro i
    rw [Nat.testBit_and, Nat.testBit_two_pow, Nat.zero_testBit]
    by_cases hki : k = i
    · subst hki
      simp [hb]
    · simp [hki]
  · intro h h0
    have hk : (x &&& 2 ^ k).testBit k = true := by
      rw [Nat.testBit_and, Nat.testBit_two_pow_self, h]
      rfl
    rw [h0, Nat.zero_testBit] at hk
    cases hk

theorem to_unsigned_to_int (x : Nat) :
    to_unsigned (to_int (x % 4294967296)) = x % 4294967296 := by
  unfold to_unsigned to_int
  have hlt : x % 4294967296 < 4294967296 := Nat.mod_lt _ (by norm_num)
  rw [Nat.mod_eq_of_lt hlt]
  split_ifs with h
  · omega
  · omega

theorem charmap_loop_iff (cms : List FT_CharMapRec) :
    charmap_loop cms = true ↔
      ∃ cm ∈ cms, ((cm.platform_id = 3 ∧ cm.encoding_id = 1) ∨ cm.platform_id = 0) ∧
        cm.cmap_format = 4 := by
  induction cms with
  | nil => simp [charmap_loop]
  | cons cm rest ih =>
    unfold charmap_loop
    by_cases hp : (cm.platform_id = 3 ∧ cm.encoding_id = 1) ∨ cm.platform_id = 0
    · by_cases hf : 4 = cm.cmap_format
      · rw [if_pos hp, if_pos hf]
        simp only [true_iff]
        exact ⟨cm, List.mem_cons_self _ _, hp, hf.symm⟩
      · rw [if_pos hp, if_neg hf, ih]
        simp only [List.mem_cons]
        constructor
        · rintro ⟨c, hc, h1, h2⟩
          exact ⟨c, Or.inr hc, h1, h2⟩
        · rintro ⟨c, hc | hc, h1, h2⟩
          · subst hc
            exact absurd h2.symm hf
          · exact ⟨c, hc, h1, h2⟩
    · rw [if_neg hp, ih]
      simp only [List.mem_cons]
      constructor
      · rintro ⟨c, hc, h1, h2⟩
        exact ⟨c, Or.inr hc, h1, h2⟩
      · rintro ⟨c, hc | hc, h1, h2⟩
        · subst hc
          exact absurd h1 hp
        · exact ⟨c, hc, h1, h2⟩

theorem calculate_hash_frame {E : Nat} {s s1 : TypefaceImpl}
    (h : calculate_hash E s = .ok s1) :
    s1 = { s with m_md5 := s1.m_md5 } ∧ s.m_open_args.records ≠ [] := by
  unfold calculate_hash at h
  split at h
  · cases h
  · rename_i n hn
    simp only at h
    split at h
    · cases h
    · split at h
      · cases h
      · injection h with h
        subst h
        refine ⟨rfl, ?_⟩
        intro hnil
        simp [data_size, JAG_PRECONDITION, num_streams, hnil] at hn

theorem detect_type_frame {s s1 : TypefaceImpl} (h : detect_type s = .ok s1)
    (h0 : s.m_type = .FACE_UNINITIALIZED) :
    (s1.m_type = .FACE_TRUE_TYPE ∨ s1.m_type = .FACE_OPEN_TYPE_CFF) ∧
    s1 = { s with m_type := s1.m_type } ∧ s.m_face.is_sfnt = true := by
  unfold detect_type at h
  simp only [JAG_ASSERT] at h
  by_cases hs : s.m_face.is_sfnt = true
  · simp only [hs, if_true] at h
    by_cases hg : probe_table_len s.m_face .glyf 0 = 0
    · by_cases hc : probe_table_len s.m_face .CFF (probe_table_len s.m_face .glyf 0) = 0
      · simp [hg, hc] at h
        simp [hg] at hc
        simp [hc] at h
      · simp [hg] at hc
        simp [hg, hc] at h
        split at h
        · cases h
        · rename_i heq
          split at heq
          · cases heq
          · cases heq
            cases h
            simp [hs]
    · simp [hg] at h
      split at h
      · cases h
      · rename_i heq
        split at heq
        · cases heq
        · cases heq
          cases h
          simp [hs]
  · simp [hs, h0] at h

theorem detect_type_not_sfnt {s : TypefaceImpl} (h0 : s.m_type = .FACE_UNINITIALIZED)
    (hs : s.m_face.is_sfnt = false) : detect_type s = .error .unknown_font_format := by
  unfold detect_type
  simp [hs, h0]

theorem preflight_sfnt_ok {s t : TypefaceImpl} (h : preflight_sfnt s = .ok t) :
    ∃ os2, s.m_face.os2 = some os2 ∧
      t.m_face = s.m_face ∧ t.m_type = s.m_type ∧ t.m_open_args = s.m_open_args ∧
      t.m_md5 = s.m_md5 ∧
      t.m_can_embed = (s.m_can_embed ||
        decide (os2.fsType &&& 0x8 ≠ 0 ∨ os2.fsType &&& 0x4 ≠ 0 ∨ ¬ (os2.fsType &&& 0x2 ≠ 0))) ∧
      t.m_can_subset = (s.m_can_subset ||
        (decide (¬ (os2.fsType &&& 0x100 ≠ 0)) && charmap_loop s.m_face.charmaps)) ∧
      t.m_metrics.ascent = s.m_metrics.ascent ∧
      HeightsFrom s.m_face os2 s.m_metrics.ascent t.m_metrics.cap_height t.m_metrics.xheight := by
  unfold preflight_sfnt at h
  cases hos : s.m_face.os2 with
  | none => simp [Table.get, hos] at h
  | some os2 =>
    cases hps : s.m_face.post with
    | none => simp [Table.get, hos, hps] at h
    | some ps =>
      simp only [Table.get, hos, hps] at h
      injection h with h
      subst h
      refine ⟨os2, rfl, ?_, ?_, ?_, ?_, ?_, ?_, ?_, ?_, ?_, ?_⟩
      · dsimp only
        split_ifs <;> rfl
      · dsimp only
        split_ifs <;> rfl
      · dsimp only
        split_ifs <;> rfl
      · dsimp only
        split_ifs <;> rfl
      · dsimp only
        split_ifs <;> simp_all
      · dsimp only
        split_ifs <;> simp_all
      · dsimp only
        by_cases hv : os2.version ≥ 2
        · simp only [hv, if_true]
          split_ifs <;> rfl
        · simp only [hv, if_false]
          cases hp : s.m_face.pclt with
          | some pclt =>
            simp only [Table.exists, Option.isSome, if_true]
            split_ifs <;> rfl
          | none =>
            simp only [Table.exists, Option.isSome]
            cases h72 : s.m_face.load_char 72 <;> cases h120 : s.m_face.load_char 120 <;>
              simp <;> split_ifs <;> rfl
      · intro hv
        simp [hv]
      · intro hv pclt hp
        simp [hv, hp, Table.exists]
      · intro hv hp
        simp only [hv, hp, Table.exists, if_false, Option.isSome]
        constructor
        · cases h72 : s.m_face.load_char 72 <;> cases h120 : s.m_face.load_char 120 <;>
            simp <;> split_ifs <;> rfl
        · cases h72 : s.m_face.load_char 72 <;> cases h120 : s.m_face.load_char 120 <;> simp

theorem preflight_ok {s t : TypefaceImpl} (h : preflight s = .ok t) :
    s.m_type ≠ .FACE_UNINITIALIZED ∧
    t.m_face = s.m_face ∧ t.m_type = s.m_type ∧ t.m_open_args = s.m_open_args ∧
    t.m_md5 = s.m_md5 ∧
    (s.m_type = .FACE_TRUE_TYPE ∨ s.m_type = .FACE_OPEN_TYPE_CFF →
      ∃ os2, s.m_face.os2 = some os2 ∧
        t.m_can_embed = (s.m_can_embed ||
          decide (os2.fsType &&& 0x8 ≠ 0 ∨ os2.fsType &&& 0x4 ≠ 0 ∨ ¬ (os2.fsType &&& 0x2 ≠ 0))) ∧
        (s.m_type = .FACE_TRUE_TYPE → t.m_can_subset = (s.m_can_subset ||
          (decide (¬ (os2.fsType &&& 0x100 ≠ 0)) && charmap_loop s.m_face.charmaps))) ∧
        t.m_metrics.ascent = s.m_face.ascender ∧
        HeightsFrom s.m_face os2 t.m_metrics.ascent t.m_metrics.cap_height t.m_metrics.xheight) ∧
    (s.m_type = .FACE_OPEN_TYPE_CFF → t.m_can_subset = false) ∧
    (s.m_type = .FACE_TYPE_1 → t.m_can_subset = false ∧ t.m_can_embed = false) := by
  unfold preflight at h
  by_cases hu : s.m_type = .FACE_UNINITIALIZED
  · simp [JAG_PRECONDITION, hu] at h
  · simp only [JAG_PRECONDITION, hu, ne_eq, not_false_eq_true, decide_True, if_true] at h
    cases hg : s.m_face.load_glyph 0 with
    | error code => simp [CHECK_FT, hg] at h
    | ok glyph =>
      simp only [CHECK_FT, hg] at h
      cases hty : s.m_type with
      | FACE_UNINITIALIZED => exact absurd hty hu
      | FACE_TRUE_TYPE =>
        simp only [hty] at h
        split at h
        · cases h
        · rename_i u hsw
          obtain ⟨os2, hos, hf, hT, ha, hm, he, hsb, hasc, hh⟩ := preflight_sfnt_ok hsw
          simp only at hf hT ha hm he hsb hasc hh hos
          have hTu : u.m_type = .FACE_TRUE_TYPE := hT
          simp only [hTu, reduceCtorEq, if_false] at h
          split at h
          · cases h
          · injection h with h
            subst h
            refine ⟨by simp, hf, hTu, ha, hm, ?_, by simp, by simp⟩
            intro _
            refine ⟨os2, hos, he, fun _ => hsb, hasc, ?_⟩
            rw [hasc]
            exact hh
      | FACE_OPEN_TYPE_CFF =>
        simp only [hty] at h
        split at h
        · cases h
        · rename_i u hsw
          obtain ⟨os2, hos, hf, hT, ha, hm, he, hsb, hasc, hh⟩ := preflight_sfnt_ok hsw
          simp only at hf hT ha hm he hsb hasc hh hos
          have hTu : u.m_type = .FACE_OPEN_TYPE_CFF := hT
          simp only [hTu, reduceCtorEq, if_false, if_true] at h
          split at h
          · cases h
          · injection h with h
            subst h
            refine ⟨by simp, hf, rfl, ha, hm, ?_, by simp, by simp⟩
            intro _
            refine ⟨os2, hos, he, by simp, hasc, ?_⟩
            show HeightsFrom s.m_face os2 u.m_metrics.ascent u.m_metrics.cap_height
              u.m_metrics.xheight
            rw [hasc]
            exact hh
      | FACE_TYPE_1 =>
        simp only [hty, reduceCtorEq, if_false, if_true] at h
        split at h
        · cases h
        · injection h with h
          subst h
          simp [hty]

theorem sampleTypeface_constructed :
    TypefaceImpl.ctor 2 sampleLib sampleArgs = .ok sampleTypeface := by
  rfl

theorem font_program_no_options (E : Nat) (s : TypefaceImpl) (index : Int) :
    font_program E s index 0 = font_program 0 s index 0 := by
  unfold font_program
  simp

theorem calculate_hash_any_flag (E : Nat) (s : TypefaceImpl) :
    calculate_hash E s = calculate_hash 0 s := by
  unfold calculate_hash
  rw [font_program_no_options]

theorem ctor_body_ok {E : Nat} {log : List CtorStep} {s t : TypefaceImpl}
    (h : (TypefaceImpl.ctor_body E log s).2 = .ok t) :
    ∃ s1 s2, calculate_hash E s = .ok s1 ∧ detect_type s1 = .ok s2 ∧ preflight s2 = .ok t := by
  unfold TypefaceImpl.ctor_body at h
  cases h1 : calculate_hash E s with
  | error e => simp [h1] at h
  | ok s1 =>
    cases h2 : detect_type s1 with
    | error e => simp [h1, h2] at h
    | ok s2 =>
      simp only [h1, h2] at h
      exact ⟨s1, s2, rfl, h2, h⟩

theorem ctor_ok {E : Nat} {ftlib : FT_Library} {args : FTOpenArgs} {t : TypefaceImpl}
    (h : TypefaceImpl.ctor E ftlib args = .ok t) :
    ∃ face s1 s2, ftlib.open_face = .ok face ∧
      calculate_hash E (TypefaceImpl.members_init args face) = .ok s1 ∧
      detect_type s1 = .ok s2 ∧ preflight s2 = .ok t := by
  unfold TypefaceImpl.ctor TypefaceImpl.ctor_steps at h
  cases ho : ftlib.open_face with
  | error code => simp [CHECK_FT, ho] at h
  | ok face =>
    simp only [CHECK_FT, ho] at h
    by_cases h2 : 2 = args.records.length
    · simp only [h2, if_true] at h
      cases ha : ftlib.attach_stream with
      | error code => simp [ha] at h
      | ok u =>
        simp only [ha] at h
        obtain ⟨s1, s2, e1, e2, e3⟩ := ctor_body_ok h
        exact ⟨face, s1, s2, rfl, e1, e2, e3⟩
    · simp only [h2, if_false] at h
      obtain ⟨s1, s2, e1, e2, e3⟩ := ctor_body_ok h
      exact ⟨face, s1, s2, rfl, e1, e2, e3⟩

/-- What is known of every constructed object: the face is the opened one,
there is a stream 0, the type is one of the two sfnt kinds, and the flags and
heights are the ones the sfnt block of `preflight` derives from the OS/2
table. -/
theorem ctor_summary {E : Nat} {ftlib : FT_Library} {args : FTOpenArgs} {t : TypefaceImpl}
    (h : TypefaceImpl.ctor E ftlib args = .ok t) :
    ftlib.open_face = .ok t.m_face ∧ t.m_open_args = args ∧ args.records ≠ [] ∧
    (t.m_type = .FACE_TRUE_TYPE ∨ t.m_type = .FACE_OPEN_TYPE_CFF) ∧
    t.m_face.is_sfnt = true ∧
    ∃ os2, t.m_face.os2 = some os2 ∧
      t.m_can_embed =
        decide (os2.fsType &&& 0x8 ≠ 0 ∨ os2.fsType &&& 0x4 ≠ 0 ∨ ¬ (os2.fsType &&& 0x2 ≠ 0)) ∧
      (t.m_type = .FACE_TRUE_TYPE → t.m_can_subset =
        (decide (¬ (os2.fsType &&& 0x100 ≠ 0)) && charmap_loop t.m_face.charmaps)) ∧
      (t.m_type = .FACE_OPEN_TYPE_CFF → t.m_can_subset = false) ∧
      t.m_metrics.ascent = t.m_face.ascender ∧
      HeightsFrom t.m_face os2 t.m_metrics.ascent t.m_metrics.cap_height t.m_metrics.xheight := by
  obtain ⟨face, s1, s2, ho, h1, h2, h3⟩ := ctor_ok h
  obtain ⟨e1, hne⟩ := calculate_hash_frame h1
  have hs1ty : s1.m_type = .FACE_UNINITIALIZED := by rw [e1]; rfl
  obtain ⟨hty, e2, hsf⟩ := detect_type_frame h2 hs1ty
  obtain ⟨_, pf, pT, pa, _, psf, pcff, _⟩ := preflight_ok h3
  have hface2 : s2.m_face = face := by rw [e2, e1]; rfl
  have hargs2 : s2.m_open_args = args := by rw [e2, e1]; rfl
  have hemb2 : s2.m_can_embed = false := by rw [e2, e1]; rfl
  have hsub2 : s2.m_can_subset = false := by rw [e2, e1]; rfl
  have hsf1 : s1.m_face = face := by rw [e1]; rfl
  obtain ⟨os2, hos, he, hsb, hasc, hh⟩ := psf hty
  refine ⟨?_, ?_, hne, ?_, ?_, os2, ?_, ?_, ?_, ?_, ?_, ?_⟩
  · rw [pf, hface2]; exact ho
  · rw [pa, hargs2]
  · rw [pT]; exact hty
  · rw [pf, hface2, ← hsf1]; exact hsf
  · rw [pf]; exact hos
  · rw [he, hemb2]; simp
  · intro htt
    rw [pT] at htt
    rw [hsb htt, hsub2, pf]; simp
  · intro hc
    rw [pT] at hc
    exact pcff hc
  · rw [pf]; exact hasc
  · rw [pf]; exact hh

/-! ## Permission flags -/

theorem embed_flag_iff {E : Nat} {ftlib : FT_Library} {args : FTOpenArgs}
    {t : TypefaceImpl} (h : TypefaceImpl.ctor E ftlib args = .ok t) :
    ∃ os2, t.m_face.os2 = some os2 ∧
      (t.m_can_embed = true ↔
        (os2.fsType.testBit 3 = true ∨ os2.fsType.testBit 2 = true ∨
          os2.fsType.testBit 1 = false)) ∧
      (os2.fsType = 0x0000 → t.m_can_embed = true) ∧
      (os2.fsType = 0x0002 → t.m_can_embed = false) := by
  obtain ⟨_, _, _, _, _, os2, hos, he, _⟩ := ctor_summary h
  have h8 := land_two_pow_ne_zero_iff os2.fsType 3
  have h4 := land_two_pow_ne_zero_iff os2.fsType 2
  have h2 := land_two_pow_ne_zero_iff os2.fsType 1
  norm_num at h8 h4 h2
  have key : t.m_can_embed = true ↔
      (os2.fsType.testBit 3 = true ∨ os2.fsType.testBit 2 = true ∨
        os2.fsType.testBit 1 = false) := by
    rw [he, decide_eq_true_iff]
    simp only [ne_eq, h8, h4, h2, Bool.not_eq_true]
  refine ⟨os2, hos, key, ?_, ?_⟩
  · intro h0
    rw [key, h0]
    decide
  · intro h0
    have hn : ¬ (t.m_can_embed = true) := by
      rw [key, h0]
      decide
    simpa using hn

/-- C1: on every constructed typeface (its type is TrueType or OpenType-CFF),
`can_embed` is true exactly when the OS/2 `fsType` has bit 0x8 set, or bit 0x4
set, or bit 0x2 clear; `fsType = 0x0000` gives true and `fsType = 0x0002` gives
false. -/
theorem can_embed_iff_fsType (E : Nat) (ftlib : FT_Library) (args : FTOpenArgs)
    (t : TypefaceImpl) (h : TypefaceImpl.ctor E ftlib args = .ok t) :
    ∃ os2, t.m_face.os2 = some os2 ∧
      (t.m_can_embed = true ↔
        (os2.fsType.testBit 3 = true ∨ os2.fsType.testBit 2 = true ∨
          os2.fsType.testBit 1 = false)) ∧
      (os2.fsType = 0x0000 → t.m_can_embed = true) ∧
      (os2.fsType = 0x0002 → t.m_can_embed = false) ∧
      (t.m_type = .FACE_TRUE_TYPE ∨ t.m_type = .FACE_OPEN_TYPE_CFF) := by
  obtain ⟨os2, hos, h1, h2, h3⟩ := embed_flag_iff h
  exact ⟨os2, hos, h1, h2, h3, (ctor_summary h).2.2.2.1⟩

/-- Witness of C1 on the sample TrueType face, whose `fsType` is 0. -/
theorem can_embed_iff_fsType_witness :
    TypefaceImpl.ctor 2 sampleLib sampleArgs = .ok sampleTypeface ∧
    ∃ os2, sampleTypeface.m_face.os2 = some os2 ∧
      (sampleTypeface.m_can_embed = true ↔
        (os2.fsType.testBit 3 = true ∨ os2.fsType.testBit 2 = true ∨
          os2.fsType.testBit 1 = false)) ∧
      (os2.fsType = 0x0000 → sampleTypeface.m_can_embed = true) ∧
      (os2.fsType = 0x0002 → sampleTypeface.m_can_embed = false) ∧
      (sampleTypeface.m_type = .FACE_TRUE_TYPE ∨
        sampleTypeface.m_type = .FACE_OPEN_TYPE_CFF) :=
  ⟨by rfl, can_embed_iff_fsType 2 sampleLib sampleArgs sampleTypeface (by rfl)⟩

/-- C2: on every constructed TrueType typeface, `can_subset` is true exactly
when `fsType` bit 0x100 is clear and some charmap of the face is (platform 3,
encoding 1) or platform 0 and has cmap format 4; with bit 0x100 set (as in
`fsType = 0x0102`) `can_subset` is false whatever the charmaps are. -/
theorem can_subset_iff_truetype (E : Nat) (ftlib : FT_Library) (args : FTOpenArgs)
    (t : TypefaceImpl) (h : TypefaceImpl.ctor E ftlib args = .ok t)
    (hty : t.m_type = .FACE_TRUE_TYPE) :
    ∃ os2, t.m_face.os2 = some os2 ∧
      (t.m_can_subset = true ↔
        (os2.fsType.testBit 8 = false ∧
          ∃ cm ∈ t.m_face.charmaps,
            ((cm.platform_id = 3 ∧ cm.encoding_id = 1) ∨ cm.platform_id = 0) ∧
              cm.cmap_format = 4)) ∧
      (os2.fsType.testBit 8 = true → t.m_can_subset = false) ∧
      (os2.fsType = 0x0102 → t.m_can_subset = false) := by
  obtain ⟨_, _, _, _, _, os2, hos, _, hsb, _⟩ := ctor_summary h
  have h100 := land_two_pow_ne_zero_iff os2.fsType 8
  norm_num at h100
  have key : t.m_can_subset = true ↔
      (os2.fsType.testBit 8 = false ∧
        ∃ cm ∈ t.m_face.charmaps,
          ((cm.platform_id = 3 ∧ cm.encoding_id = 1) ∨ cm.platform_id = 0) ∧
            cm.cmap_format = 4) := by
    rw [hsb hty, Bool.and_eq_true, decide_eq_true_iff, charmap_loop_iff]
    simp only [ne_eq, h100, Bool.not_eq_true]
  have hset : os2.fsType.testBit 8 = true → t.m_can_subset = false := by
    intro hb
    have hn : ¬ (t.m_can_subset = true) := by
      rw [key, hb]
      simp
    simpa using hn
  refine ⟨os2, hos, key, hset, ?_⟩
  intro h0
  apply hset
  rw [h0]
  decide

/-- Witness of C2 on the sample TrueType face. -/
theorem can_subset_iff_truetype_witness :
    TypefaceImpl.ctor 2 sampleLib sampleArgs = .ok sampleTypeface ∧
    sampleTypeface.m_type = .FACE_TRUE_TYPE ∧
    ∃ os2, sampleTypeface.m_face.os2 = some os2 ∧
      (sampleTypeface.m_can_subset = true ↔
        (os2.fsType.testBit 8 = false ∧
          ∃ cm ∈ sampleTypeface.m_face.charmaps,
            ((cm.platform_id = 3 ∧ cm.encoding_id = 1) ∨ cm.platform_id = 0) ∧
              cm.cmap_format = 4)) ∧
      (os2.fsType.testBit 8 = true → sampleTypeface.m_can_subset = false) ∧
      (os2.fsType = 0x0102 → sampleTypeface.m_can_subset = false) :=
  ⟨by rfl, rfl, can_subset_iff_truetype 2 sampleLib sampleArgs sampleTypeface (by rfl) rfl⟩

/-- C3: on every constructed typeface `can_subset = true` implies type
TrueType; an OpenType-CFF or Type1 typeface reports `can_subset = false`; an
OpenType-CFF typeface whose `fsType` permits embedding reports
`can_embed = true`; and `preflight` itself, entered with any type and any
flags, never leaves `can_subset` true on a type other than TrueType and leaves
both flags false on Type1. -/
theorem can_subset_implies_truetype (E : Nat) (ftlib : FT_Library) (args : FTOpenArgs)
    (t : TypefaceImpl) (h : TypefaceImpl.ctor E ftlib args = .ok t) :
    (t.m_can_subset = true → t.m_type = .FACE_TRUE_TYPE) ∧
    (t.m_type = .FACE_OPEN_TYPE_CFF ∨ t.m_type = .FACE_TYPE_1 → t.m_can_subset = false) ∧
    (t.m_type = .FACE_OPEN_TYPE_CFF →
      ∃ os2, t.m_face.os2 = some os2 ∧
        ((os2.fsType.testBit 3 = true ∨ os2.fsType.testBit 2 = true ∨
            os2.fsType.testBit 1 = false) → t.m_can_embed = true)) ∧
    (∀ s u : TypefaceImpl, preflight s = .ok u →
      (u.m_can_subset = true → u.m_type = .FACE_TRUE_TYPE) ∧
      (u.m_type = .FACE_TYPE_1 → u.m_can_subset = false ∧ u.m_can_embed = false)) := by
  obtain ⟨_, _, _, hk, _, os2, hos, _, _, hcff, _⟩ := ctor_summary h
  refine ⟨?_, ?_, ?_, ?_⟩
  · intro hs
    rcases hk with hk | hk
    · exact hk
    · rw [hcff hk] at hs
      cases hs
  · rintro (hc | h1)
    · exact hcff hc
    · rcases hk with hk | hk <;> rw [hk] at h1 <;> cases h1
  · intro hc
    obtain ⟨o, ho, hiff, _⟩ := embed_flag_iff h
    exact ⟨o, ho, hiff.mpr⟩
  · intro s u hp
    obtain ⟨hu, _, pT, _, _, _, pcff, pt1⟩ := preflight_ok hp
    constructor
    · intro hs
      rw [pT]
      cases hty : s.m_type with
      | FACE_UNINITIALIZED => exact absurd hty hu
      | FACE_TRUE_TYPE => rfl
      | FACE_OPEN_TYPE_CFF =>
        rw [pcff hty] at hs
        cases hs
      | FACE_TYPE_1 =>
        rw [(pt1 hty).1] at hs
        cases hs
    · intro h1
      rw [pT] at h1
      exact pt1 h1

/-- Witness of C3 on the sample OpenType-CFF face, whose `fsType` is 0:
`can_embed` is true and `can_subset` is false. -/
theorem can_subset_implies_truetype_witness :
    TypefaceImpl.ctor 2 cffLib sampleArgs = .ok cffTypeface ∧
    cffTypeface.m_can_embed = true ∧ cffTypeface.m_can_subset = false ∧
    (cffTypeface.m_type = .FACE_OPEN_TYPE_CFF ∨ cffTypeface.m_type = .FACE_TYPE_1 →
      cffTypeface.m_can_subset = false) :=
  ⟨by rfl, rfl, rfl,
    (can_subset_implies_truetype 2 cffLib sampleArgs cffTypeface (by rfl)).2.1⟩

/-! ## Content fingerprint -/

theorem write_at_mid (a b c cells : List (Option Nat)) (off : Nat) (hoff : off = a.length)
    (hlen : cells.length = b.length) :
    write_at (a ++ (b ++ c)) off cells = a ++ (cells ++ c) := by
  subst hoff
  unfold write_at
  have h1 : (a ++ (b ++ c)).take a.length = a := by simp
  have h2 : (a ++ (b ++ c)).drop (a.length + cells.length) = c := by
    rw [hlen, ← List.length_append, ← List.append_assoc]
    simp
  rw [h1, h2]
  apply List.take_of_length_le
  simp [hlen]

theorem hash_buffer_writes (N k : Nat) (enc got : List (Option Nat)) (hk4 : 4 ≤ k)
    (hkN : k ≤ N) (henc : enc.length = 4) (hgot : got.length = k - 4) :
    write_at (write_at
      (if (k : Int) < (N : Int) then
        memset (List.replicate N none) (k : Int).toNat 0 ((N : Int) - (k : Int)).toNat
      else List.replicate N none) 0 enc) 4 got =
    enc ++ (got ++ List.replicate (N - k) (some 0)) := by
  have hb1 : (if (k : Int) < (N : Int) then
        memset (List.replicate N none) (k : Int).toNat 0 ((N : Int) - (k : Int)).toNat
      else List.replicate N none) =
      List.replicate 4 none ++ (List.replicate (k - 4) none ++
        List.replicate (N - k) (some 0)) := by
    have hk' : (List.replicate k none : List (Option Nat)) =
        List.replicate 4 none ++ List.replicate (k - 4) none := by
      rw [← List.replicate_add]
      congr 1
      omega
    split_ifs with hlt
    · have hsplit : (List.replicate N none : List (Option Nat)) =
          List.replicate k none ++ (List.replicate (N - k) none ++ []) := by
        rw [List.append_nil, ← List.replicate_add]
        congr 1
        omega
      have hc : ((N : Int) - (k : Int)).toNat = N - k := by omega
      unfold memset
      rw [hsplit, Int.toNat_ofNat, hc,
        write_at_mid _ _ _ _ _ (by simp) (by simp)]
      rw [List.append_nil, hk', List.append_assoc]
    · have hkN' : N = k := by omega
      subst hkN'
      rw [Nat.sub_self, List.replicate_zero, List.append_nil]
      exact hk'
  rw [hb1]
  have hb2 : write_at (List.replicate 4 none ++ (List.replicate (k - 4) none ++
        List.replicate (N - k) (some 0))) 0 enc =
      enc ++ (List.replicate (k - 4) none ++ List.replicate (N - k) (some 0)) := by
    have := write_at_mid [] (List.replicate 4 none) (List.replicate (k - 4) none ++
        List.replicate (N - k) (some 0)) enc 0 rfl (by simp [henc])
    simpa using this
  rw [hb2]
  exact write_at_mid _ _ _ _ _ henc.symm (by simp [hgot])

/-- What `calculate_hash` feeds to MD5 for a stream 0 of declared size `n ≥ 4`
whose read succeeds: the size, the first `min n 1024 - 4` bytes of the stream
and `1024 - min n 1024` zero bytes. -/
theorem calculate_hash_buffer (E : Nat) (s : TypefaceImpl) (r : StreamRecord)
    (rest : List StreamRecord) (hrec : s.m_open_args.records = r :: rest)
    (h4 : 4 ≤ r.size) (hdata : min r.size 1024 - 4 ≤ r.data.length) :
    calculate_hash E s = .ok { s with m_md5 :=
      (List.map some (store_uint r.size) ++
        (List.map some (r.data.take (min r.size 1024 - 4)) ++
          List.replicate (1024 - min r.size 1024) (some 0))) } := by
  have hds : data_size s 0 = .ok (r.size : Int) := by
    simp [data_size, JAG_PRECONDITION, num_streams, get_args, hrec]
  have hfp : font_program E s 0 0 = .ok r.data := by
    simp [font_program, JAG_PRECONDITION, num_streams, get_args, hrec]
  have hk4 : 4 ≤ min r.size 1024 := by omega
  have hk1024 : min r.size 1024 ≤ 1024 := by omega
  have hmin : min (r.size : Int) 1024 = ((min r.size 1024 : Nat) : Int) := by omega
  have hun : to_unsigned (((min r.size 1024 : Nat) : Int) - 4) = min r.size 1024 - 4 := by
    unfold to_unsigned
    omega
  have hgot : (List.take (min r.size 1024 - 4) r.data).length = min r.size 1024 - 4 := by
    rw [List.length_take]
    omega
  have hti : to_int (List.take (min r.size 1024 - 4) r.data).length =
      ((min r.size 1024 : Nat) : Int) - 4 := by
    rw [hgot]
    unfold to_int
    split_ifs <;> omega
  have hW := hash_buffer_writes 1024 (min r.size 1024) ((store_uint r.size).map some)
    ((r.data.take (min r.size 1024 - 4)).map some) hk4 hk1024 (by simp [store_uint])
    (by rw [List.length_map, hgot])
  unfold calculate_hash
  rw [hds]
  dsimp only
  rw [hfp]
  dsimp only
  rw [hmin, hun, hti]
  simp only [Nat.cast_ofNat] at hW
  rw [if_neg (fun hne => hne rfl), hW]

/-- For a stream 0 that declares at least 1024 bytes and yields at least 1020,
`calculate_hash` feeds MD5 the buffer the specification describes. -/
theorem calculate_hash_long_stream (E : Nat) (s : TypefaceImpl) (r : StreamRecord)
    (rest : List StreamRecord) (hrec : s.m_open_args.records = r :: rest)
    (hsize : 1024 ≤ r.size) (hdata : 1020 ≤ r.data.length) :
    calculate_hash E s = .ok { s with m_md5 := fingerprint_buffer_spec r.size r.data } := by
  have hk : min r.size 1024 = 1024 := by omega
  rw [calculate_hash_buffer E s r rest hrec (by omega) (by omega), hk]
  have hlen : (List.take 1020 r.data).length = 1020 := by
    rw [List.length_take]
    omega
  unfold fingerprint_buffer_spec
  rw [hlen]
  simp

/-- C4 (the code at the failing input): for stream 0 with declared size 10 and
the ten bytes 1..10, `calculate_hash` succeeds and feeds MD5 the size, the
first six bytes only and 1014 zero bytes; the specification's buffer holds all
ten bytes, so the two differ. -/
theorem calculate_hash_short_stream_drops_tail :
    (∀ E : Nat, ∃ s1, calculate_hash E (TypefaceImpl.members_init sampleArgs sampleFace) = .ok s1 ∧
      s1.m_md5 =
        ([10, 0, 0, 0, 1, 2, 3, 4, 5, 6] ++ List.replicate 1014 0).map some) ∧
    fingerprint_buffer_spec 10 [1, 2, 3, 4, 5, 6, 7, 8, 9, 10] =
      ([10, 0, 0, 0, 1, 2, 3, 4, 5, 6, 7, 8, 9, 10] ++ List.replicate 1010 0).map some ∧
    ([10, 0, 0, 0, 1, 2, 3, 4, 5, 6] ++ List.replicate 1014 0).map some ≠
      fingerprint_buffer_spec 10 [1, 2, 3, 4, 5, 6, 7, 8, 9, 10] := by
  refine ⟨?_, by rfl, ?_⟩
  · intro E
    rw [calculate_hash_any_flag]
    exact ⟨_, rfl, rfl⟩
  · intro hEq
    have h10 := congrArg (fun l => l.get? 10) hEq
    revert h10
    decide

/-! ## Order of the construction steps -/

/-- C5 (counterexample): with a face that is not an sfnt container, so that
`detect_type` fails with the unknown format error, and a stream 0 that yields
fewer bytes than the fingerprint asks for, the constructor enters
`calculate_hash` and fails there with the read error; `detect_type` is never
entered. -/
theorem ctor_detect_first_counterexample :
    detect_type (TypefaceImpl.members_init shortReadArgs nonSfntFace) =
      .error .unknown_font_format ∧
    TypefaceImpl.ctor_steps 2 nonSfntLib shortReadArgs =
      ([.FT_Open_Face, .calculate_hash], .error .cannot_read_typeface) ∧
    TypefaceImpl.ctor 2 nonSfntLib shortReadArgs ≠ .error .unknown_font_format := by
  refine ⟨by rfl, by rfl, ?_⟩
  intro hEq
  have h2 : TypefaceImpl.ctor 2 nonSfntLib shortReadArgs = .error .cannot_read_typeface := by rfl
  rw [h2] at hEq
  cases hEq

/-- C5 (amended): once the face is open (and the second stream attached when
there are two), the constructor runs `calculate_hash`, then `detect_type`, then
`preflight`, each only after the previous one succeeded: a failing fingerprint
is the failure of the constructor and `detect_type` is not entered; a failing
detection after a successful fingerprint is the failure of the constructor and
`preflight` is not entered; otherwise the outcome is that of `preflight`. -/
theorem ctor_runs_hash_detect_preflight (E : Nat) (ftlib : FT_Library) (args : FTOpenArgs)
    (face : FT_Face) (hopen : ftlib.open_face = .ok face)
    (hattach : 2 = args.records.length → ftlib.attach_stream = .ok ()) :
    (∀ e, calculate_hash E (TypefaceImpl.members_init args face) = .error e →
      TypefaceImpl.ctor_steps E ftlib args =
        ((if 2 = args.records.length then [.FT_Open_Face, .FT_Attach_Stream]
          else [.FT_Open_Face]) ++ [.calculate_hash], .error e)) ∧
    (∀ s1 e, calculate_hash E (TypefaceImpl.members_init args face) = .ok s1 →
      detect_type s1 = .error e →
      TypefaceImpl.ctor_steps E ftlib args =
        ((if 2 = args.records.length then [.FT_Open_Face, .FT_Attach_Stream]
          else [.FT_Open_Face]) ++ [.calculate_hash, .detect_type], .error e)) ∧
    (∀ s1 s2, calculate_hash E (TypefaceImpl.members_init args face) = .ok s1 →
      detect_type s1 = .ok s2 →
      TypefaceImpl.ctor_steps E ftlib args =
        ((if 2 = args.records.length then [.FT_Open_Face, .FT_Attach_Stream]
          else [.FT_Open_Face]) ++ [.calculate_hash, .detect_type, .preflight],
          preflight s2)) := by
  by_cases h2 : 2 = args.records.length
  · have ha := hattach h2
    refine ⟨?_, ?_, ?_⟩
    · intro e he
      simp [TypefaceImpl.ctor_steps, TypefaceImpl.ctor_body, CHECK_FT, hopen, ha, h2, he]
    · intro s1 e h1 hd
      simp [TypefaceImpl.ctor_steps, TypefaceImpl.ctor_body, CHECK_FT, hopen, ha, h2, h1, hd]
    · intro s1 s2 h1 hd
      simp [TypefaceImpl.ctor_steps, TypefaceImpl.ctor_body, CHECK_FT, hopen, ha, h2, h1, hd]
  · refine ⟨?_, ?_, ?_⟩
    · intro e he
      simp [TypefaceImpl.ctor_steps, TypefaceImpl.ctor_body, CHECK_FT, hopen, h2, he]
    · intro s1 e h1 hd
      simp [TypefaceImpl.ctor_steps, TypefaceImpl.ctor_body, CHECK_FT, hopen, h2, h1, hd]
    · intro s1 s2 h1 hd
      simp [TypefaceImpl.ctor_steps, TypefaceImpl.ctor_body, CHECK_FT, hopen, h2, h1, hd]

/-- Witness of the amended C5 on the sample TrueType input: the face opens,
there is one stream, and the constructor enters the fingerprint, the detection
and the metrics extractor in this order. -/
theorem ctor_runs_hash_detect_preflight_witness :
    sampleLib.open_face = .ok sampleFace ∧
    (2 = sampleArgs.records.length → sampleLib.attach_stream = .ok ()) ∧
    (TypefaceImpl.ctor_steps 2 sampleLib sampleArgs).1 =
      [.FT_Open_Face, .calculate_hash, .detect_type, .preflight] :=
  ⟨rfl, fun _ => rfl,
    congrArg Prod.fst
      ((ctor_runs_hash_detect_preflight 2 sampleLib sampleArgs sampleFace rfl
        (fun _ => rfl)).2.2
        { TypefaceImpl.members_init sampleArgs sampleFace with m_md5 := sampleTypeface.m_md5 }
        { TypefaceImpl.members_init sampleArgs sampleFace with
          m_md5 := sampleTypeface.m_md5, m_type := .FACE_TRUE_TYPE }
        (by rfl) (by rfl))⟩

/-! ## Cap height and x height -/

/-- C6: on every constructed typeface the pair (`cap_height`, `xheight`) follows
the fallback order: the OS/2 `sCapHeight` and `sxHeight` when the OS/2 version
is at least 2; otherwise the PCLT `CapHeight` and `xHeight` when a PCLT table
exists; otherwise `cap_height` is the height of the glyph for `H` when it loads
and the ascent when it does not, and `xheight` is the height of the glyph for
`x` when it loads and 0 when it does not. -/
theorem cap_height_xheight_fallback (E : Nat) (ftlib : FT_Library) (args : FTOpenArgs)
    (t : TypefaceImpl) (h : TypefaceImpl.ctor E ftlib args = .ok t) :
    ∃ os2, t.m_face.os2 = some os2 ∧
      (os2.version ≥ 2 →
        t.m_metrics.cap_height = os2.sCapHeight ∧ t.m_metrics.xheight = os2.sxHeight) ∧
      (os2.version < 2 → ∀ pclt, t.m_face.pclt = some pclt →
        t.m_metrics.cap_height = (pclt.CapHeight : Int) ∧
        t.m_metrics.xheight = (pclt.xHeight : Int)) ∧
      (os2.version < 2 → t.m_face.pclt = none →
        (∀ glyph, t.m_face.load_char 72 = .ok glyph →
          t.m_metrics.cap_height = glyph.height) ∧
        (∀ code, t.m_face.load_char 72 = .error code →
          t.m_metrics.cap_height = t.m_metrics.ascent) ∧
        (∀ glyph, t.m_face.load_char 120 = .ok glyph →
          t.m_metrics.xheight = glyph.height) ∧
        (∀ code, t.m_face.load_char 120 = .error code → t.m_metrics.xheight = 0)) ∧
      t.m_metrics.ascent = t.m_face.ascender := by
  obtain ⟨_, _, _, _, _, os2, hos, _, _, _, hasc, hv2, hpclt, hprobe⟩ := ctor_summary h
  refine ⟨os2, hos, hv2, ?_, ?_, hasc⟩
  · intro hv
    exact hpclt (by omega)
  · intro hv hp
    obtain ⟨hc, hx⟩ := hprobe (by omega) hp
    refine ⟨?_, ?_, ?_, ?_⟩
    · intro glyph hg
      rw [hc, hg]
    · intro code hg
      rw [hc, hg]
    · intro glyph hg
      rw [hx, hg]
    · intro code hg
      rw [hx, hg]

/-- Witness of C6 on the sample TrueType face (OS/2 version 1, no PCLT table,
the glyph for `H` loads with height 1466, the glyph for `x` does not load). -/
theorem cap_height_xheight_fallback_witness :
    TypefaceImpl.ctor 2 sampleLib sampleArgs = .ok sampleTypeface ∧
    sampleTypeface.m_metrics.cap_height = 1466 ∧ sampleTypeface.m_metrics.xheight = 0 ∧
    ∃ os2, sampleTypeface.m_face.os2 = some os2 ∧
      (os2.version ≥ 2 →
        sampleTypeface.m_metrics.cap_height = os2.sCapHeight ∧
        sampleTypeface.m_metrics.xheight = os2.sxHeight) :=
  ⟨by rfl, rfl, rfl,
    match cap_height_xheight_fallback 2 sampleLib sampleArgs sampleTypeface (by rfl) with
    | ⟨os2, hos, hv, _⟩ => ⟨os2, hos, hv⟩⟩

/-! ## Glyph queries -/

theorem gid_horizontal_advance_ok {t : TypefaceImpl} {gid : Nat} {glyph : FT_Glyph_Metrics}
    (hl : t.m_face.load_glyph gid = .ok glyph) :
    gid_horizontal_advance t gid = .ok glyph.horiAdvance := by
  simp [gid_horizontal_advance, CHECK_FT, hl]

theorem gid_horizontal_advance_error {t : TypefaceImpl} {gid : Nat} {code : Nat}
    (hl : t.m_face.load_glyph gid = .error code) :
    gid_horizontal_advance t gid = .error (.ft_error code) := by
  simp [gid_horizontal_advance, CHECK_FT, hl]

theorem char_horizontal_advance_sfnt {t : TypefaceImpl}
    (hk : t.m_type = .FACE_TRUE_TYPE ∨ t.m_type = .FACE_OPEN_TYPE_CFF) (codepoint : Int) :
    char_horizontal_advance t codepoint =
      gid_horizontal_advance t (t.m_face.get_char_index codepoint % 4294967296) := by
  rcases hk with hk | hk <;> simp [char_horizontal_advance, hk]

theorem codepoint_to_gid_sfnt {t : TypefaceImpl}
    (hk : t.m_type = .FACE_TRUE_TYPE ∨ t.m_type = .FACE_OPEN_TYPE_CFF) (codepoint : Int) :
    codepoint_to_gid t codepoint =
      .ok (to_int (t.m_face.get_char_index codepoint % 4294967296)) := by
  rcases hk with hk | hk <;> simp [codepoint_to_gid, hk]

/-- C7: on every constructed typeface and for every codepoint,
`codepoint_to_gid` succeeds with the glyph index the charmap gives, and
`char_horizontal_advance` has the outcome of `gid_horizontal_advance` on that
glyph index: when the engine loads the glyph both return its horizontal
advance, and when the engine fails to load it both fail with the engine's
code; for a codepoint the charmap does not map the glyph index is 0 and the
outcome is that of loading glyph 0. -/
theorem char_advance_eq_gid_advance (E : Nat) (ftlib : FT_Library) (args : FTOpenArgs)
    (t : TypefaceImpl) (h : TypefaceImpl.ctor E ftlib args = .ok t) (codepoint : Int) :
    (∃ gid, codepoint_to_gid t codepoint = .ok gid ∧
      to_unsigned gid = t.m_face.get_char_index codepoint % 4294967296 ∧
      char_horizontal_advance t codepoint = gid_horizontal_advance t (to_unsigned gid) ∧
      (∀ glyph, t.m_face.load_glyph (to_unsigned gid) = .ok glyph →
        char_horizontal_advance t codepoint = .ok glyph.horiAdvance ∧
        gid_horizontal_advance t (to_unsigned gid) = .ok glyph.horiAdvance) ∧
      (∀ code, t.m_face.load_glyph (to_unsigned gid) = .error code →
        char_horizontal_advance t codepoint = .error (.ft_error code) ∧
        gid_horizontal_advance t (to_unsigned gid) = .error (.ft_error code))) ∧
    (t.m_face.get_char_index codepoint = 0 →
      codepoint_to_gid t codepoint = .ok 0 ∧
      char_horizontal_advance t codepoint = gid_horizontal_advance t 0 ∧
      (∀ glyph, t.m_face.load_glyph 0 = .ok glyph →
        char_horizontal_advance t codepoint = .ok glyph.horiAdvance) ∧
      (∀ code, t.m_face.load_glyph 0 = .error code →
        char_horizontal_advance t codepoint = .error (.ft_error code))) := by
  obtain ⟨_, _, _, hk, _⟩ := ctor_summary h
  have hchar := char_horizontal_advance_sfnt hk codepoint
  have hgid := codepoint_to_gid_sfnt hk codepoint
  have hround := to_unsigned_to_int (t.m_face.get_char_index codepoint)
  refine ⟨⟨to_int (t.m_face.get_char_index codepoint % 4294967296), hgid, hround, ?_, ?_, ?_⟩, ?_⟩
  · rw [hround]
    exact hchar
  · intro glyph hl
    rw [hround] at hl ⊢
    rw [hchar]
    exact ⟨gid_horizontal_advance_ok hl, gid_horizontal_advance_ok hl⟩
  · intro code hl
    rw [hround] at hl ⊢
    rw [hchar]
    exact ⟨gid_horizontal_advance_error hl, gid_horizontal_advance_error hl⟩
  · intro h0
    have hz : t.m_face.get_char_index codepoint % 4294967296 = 0 := by
      rw [h0]
    rw [hz] at hchar hgid
    refine ⟨?_, hchar, ?_, ?_⟩
    · rw [hgid]
      rfl
    · intro glyph hl
      rw [hchar]
      exact gid_horizontal_advance_ok hl
    · intro code hl
      rw [hchar]
      exact gid_horizontal_advance_error hl

/-- Witness of C7 on the sample TrueType face: at the unmapped codepoint 65
both routes give the advance 1000 of glyph 0, and at codepoint 8364, mapped to
glyph 7 which the engine fails to load with code 16, both routes fail with that
code. -/
theorem char_advance_eq_gid_advance_witness :
    TypefaceImpl.ctor 2 sampleLib sampleArgs = .ok sampleTypeface ∧
    (char_horizontal_advance sampleTypeface 65 = .ok 1000 ∧
      gid_horizontal_advance sampleTypeface 0 = .ok 1000) ∧
    (codepoint_to_gid sampleTypeface 8364 = .ok 7 ∧
      char_horizontal_advance sampleTypeface 8364 = .error (.ft_error 16) ∧
      gid_horizontal_advance sampleTypeface 7 = .error (.ft_error 16)) ∧
    (sampleTypeface.m_face.get_char_index 65 = 0 →
      codepoint_to_gid sampleTypeface 65 = .ok 0 ∧
      char_horizontal_advance sampleTypeface 65 = gid_horizontal_advance sampleTypeface 0 ∧
      (∀ glyph, sampleTypeface.m_face.load_glyph 0 = .ok glyph →
        char_horizontal_advance sampleTypeface 65 = .ok glyph.horiAdvance) ∧
      (∀ code, sampleTypeface.m_face.load_glyph 0 = .error code →
        char_horizontal_advance sampleTypeface 65 = .error (.ft_error code))) :=
  ⟨by rfl, ⟨by rfl, by rfl⟩, ⟨by rfl, by rfl, by rfl⟩,
    (char_advance_eq_gid_advance 2 sampleLib sampleArgs sampleTypeface (by rfl) 65).2⟩

/-! ## Stream accessors -/

/-- C8: for every typeface object, every integer index and every option value,
`font_program` and `data_size` fail with a precondition violation exactly when
`index < 0` or `index >= num_streams()`; for such an index `font_program` fails
so whatever the options are, and index 2 with exactly one stream is such a
failure. -/
theorem stream_index_precondition (E : Nat) (t : TypefaceImpl) (index : Int) (options : Nat) :
    (font_program E t index options = .error .precondition ↔
      (index < 0 ∨ index ≥ num_streams t)) ∧
    (data_size t index = .error .precondition ↔ (index < 0 ∨ index ≥ num_streams t)) ∧
    (num_streams t = 1 →
      font_program E t 2 options = .error .precondition ∧
      data_size t 2 = .error .precondition) := by
  have hfp : ∀ i : Int, (font_program E t i options = .error .precondition ↔
      (i < 0 ∨ i ≥ num_streams t)) := by
    intro i
    unfold font_program JAG_PRECONDITION JAG_ASSERT
    by_cases hin : i ≥ 0 ∧ i < num_streams t
    · have hc : (decide (i ≥ 0) && decide (i < num_streams t)) = true := by
        simp [hin.1, hin.2]
      simp only [hc, if_true]
      constructor
      · intro hf
        exfalso
        split_ifs at hf with ho hty
        · cases hl : t.m_face.load_sfnt_table .CFF with
          | error code => simp [CHECK_FT, hl] at hf
          | ok bytes => simp [CHECK_FT, hl] at hf
        · simp at hf
      · intro hout
        omega
    · have hc : (decide (i ≥ 0) && decide (i < num_streams t)) = false := by
        by_cases h0 : i ≥ 0
        · have : ¬ i < num_streams t := fun hlt => hin ⟨h0, hlt⟩
          simp [this]
        · simp [h0]
      simp only [hc]
      constructor
      · intro _
        omega
      · intro _
        rfl
  have hds : ∀ i : Int, (data_size t i = .error .precondition ↔
      (i < 0 ∨ i ≥ num_streams t)) := by
    intro i
    unfold data_size JAG_PRECONDITION
    by_cases hin : i ≥ 0 ∧ i < num_streams t
    · have hc : (decide (i ≥ 0) && decide (i < num_streams t)) = true := by
        simp [hin.1, hin.2]
      simp only [hc, if_true]
      constructor
      · intro hf
        cases hf
      · intro hout
        omega
    · have hc : (decide (i ≥ 0) && decide (i < num_streams t)) = false := by
        by_cases h0 : i ≥ 0
        · have : ¬ i < num_streams t := fun hlt => hin ⟨h0, hlt⟩
          simp [this]
        · simp [h0]
      simp only [hc]
      constructor
      · intro _
        omega
      · intro _
        rfl
  refine ⟨hfp index, hds index, ?_⟩
  intro h1
  exact ⟨(hfp 2).mpr (Or.inr (by omega)), (hds 2).mpr (Or.inr (by omega))⟩

/-- Witness of C8 on the sample typeface, which has exactly one stream: index 2
is a precondition failure, also when CFF extraction is asked for. -/
theorem stream_index_precondition_witness :
    num_streams sampleTypeface = 1 ∧
    font_program 2 sampleTypeface 2 2 = .error .precondition ∧
    data_size sampleTypeface 2 = .error .precondition :=
  ⟨rfl, (stream_index_precondition 2 sampleTypeface 2 2).2.2 rfl⟩

/-! ## Subset dispatch -/

theorem font_program_ne_internal_error (E : Nat) (t : TypefaceImpl) (index : Int)
    (options : Nat) : font_program E t index options ≠ .error .internal_error := by
  intro hf
  unfold font_program JAG_PRECONDITION JAG_ASSERT at hf
  split_ifs at hf with hc ho hty
  · cases hl : t.m_face.load_sfnt_table .CFF with
    | error code => simp [CHECK_FT, hl] at hf
    | ok bytes => simp [CHECK_FT, hl] at hf
  all_goals simp at hf

theorem font_program_stream0 {E : Nat} {t : TypefaceImpl} {options : Nat}
    (hne : t.m_open_args.records ≠ []) (ho : options &&& E = 0) :
    font_program E t 0 options = .ok (get_args t.m_open_args 0).data := by
  have hlen : (0 : Int) < num_streams t := by
    unfold num_streams
    have : 0 < t.m_open_args.records.length := List.length_pos.mpr hne
    omega
  unfold font_program JAG_PRECONDITION
  simp [hlen, ho]

theorem font_program_extract_cff_truetype {E : Nat} {t : TypefaceImpl} {options : Nat}
    (hne : t.m_open_args.records ≠ []) (hty : t.m_type = .FACE_TRUE_TYPE)
    (ho : options &&& E ≠ 0) :
    font_program E t 0 options = .error .assertion := by
  have hlen : (0 : Int) < num_streams t := by
    unfold num_streams
    have : 0 < t.m_open_args.records.length := List.length_pos.mpr hne
    omega
  unfold font_program JAG_PRECONDITION JAG_ASSERT
  simp [hlen, ho, hty]

theorem subset_font_program_truetype (E D : Nat)
    (mk : IStreamInput → List Nat → Bool → Except Nat IStreamInput) (t : TypefaceImpl)
    (hs : t.m_can_subset = true) (hty : t.m_type = .FACE_TRUE_TYPE)
    (codepoints : List Nat) (options : Nat) :
    subset_font_program E D mk t codepoints options =
      (match font_program E t 0 options with
       | .error e => .error e
       | .ok font_prg =>
         match mk font_prg codepoints (!(decide (options &&& D ≠ 0))) with
         | .error code => .error (.ttfont code)
         | .ok mem_out => .ok mem_out) := by
  unfold subset_font_program JAG_PRECONDITION
  simp only [hs, if_true, hty]

/-- C9 (counterexample): the sample TrueType object is constructed and has
`can_subset = true`, yet `subset_font_program` called with the option
`EXTRACT_CFF` does not subset stream 0: the option is forwarded to
`font_program`, whose assertion on the type fails.  The same holds for every
nonzero value of the `EXTRACT_CFF` bit and of `DONT_INCLUDE_CMAP`, while
subsetting stream 0 would have succeeded. -/
theorem subset_font_program_extract_cff_counterexample :
    TypefaceImpl.ctor 2 sampleLib sampleArgs = .ok sampleTypeface ∧
    sampleTypeface.m_can_subset = true ∧
    subset_font_program 2 1 sampleSubsetter sampleTypeface [72, 120] 2 = .error .assertion ∧
    sampleSubsetter (get_args sampleTypeface.m_open_args 0).data [72, 120]
        (!(decide (2 &&& 1 ≠ 0))) = .ok [1, 2, 3, 4, 5, 6, 7, 8, 9, 10] ∧
    (∀ E D : Nat, E ≠ 0 →
      TypefaceImpl.ctor E sampleLib sampleArgs = .ok sampleTypeface ∧
      subset_font_program E D sampleSubsetter sampleTypeface [72, 120] E =
        .error .assertion) := by
  refine ⟨by rfl, rfl, by rfl, by rfl, ?_⟩
  intro E D hE
  constructor
  · have h0 : TypefaceImpl.ctor 0 sampleLib sampleArgs = .ok sampleTypeface := by rfl
    rw [← h0]
    unfold TypefaceImpl.ctor TypefaceImpl.ctor_steps TypefaceImpl.ctor_body
    simp only [calculate_hash_any_flag E]
  · rw [subset_font_program_truetype E D sampleSubsetter sampleTypeface rfl rfl,
      font_program_extract_cff_truetype (by decide) rfl (by rw [Nat.and_self]; exact hE)]

/-- C9 (amended): on every constructed typeface `subset_font_program` fails with
a precondition violation when `can_subset` is false; when `can_subset` is true
the type is TrueType and the TrueType branch runs with the caller's options
forwarded to `font_program(0, options)`: without the `EXTRACT_CFF` bit it hands
stream 0 to the subsetter with
`include_cmap = not (options has DONT_INCLUDE_CMAP)` and returns what the
subsetter returns; with the `EXTRACT_CFF` bit it fails with the assertion of
`font_program` and nothing is subsetted; the internal error statement is never
reached. -/
theorem subset_font_program_dispatch (E D : Nat)
    (mk : IStreamInput → List Nat → Bool → Except Nat IStreamInput)
    (ftlib : FT_Library) (args : FTOpenArgs) (t : TypefaceImpl)
    (h : TypefaceImpl.ctor E ftlib args = .ok t) (codepoints : List Nat) (options : Nat) :
    (t.m_can_subset = false →
      subset_font_program E D mk t codepoints options = .error .precondition) ∧
    (t.m_can_subset = true →
      t.m_type = .FACE_TRUE_TYPE ∧
      (options &&& E = 0 →
        subset_font_program E D mk t codepoints options =
          (match mk (get_args t.m_open_args 0).data codepoints
              (!(decide (options &&& D ≠ 0))) with
           | .error code => .error (.ttfont code)
           | .ok mem_out => .ok mem_out)) ∧
      (options &&& E ≠ 0 →
        subset_font_program E D mk t codepoints options = .error .assertion)) ∧
    subset_font_program E D mk t codepoints options ≠ .error .internal_error := by
  obtain ⟨_, hargs, hne, hk, _, os2, _, _, _, hcff, _⟩ := ctor_summary h
  have hne' : t.m_open_args.records ≠ [] := by
    rw [hargs]
    exact hne
  have htt : t.m_can_subset = true → t.m_type = .FACE_TRUE_TYPE := by
    intro hs
    rcases hk with hk | hk
    · exact hk
    · rw [hcff hk] at hs
      cases hs
  refine ⟨?_, ?_, ?_⟩
  · intro hs
    unfold subset_font_program JAG_PRECONDITION
    simp [hs]
  · intro hs
    refine ⟨htt hs, ?_, ?_⟩
    · intro ho
      rw [subset_font_program_truetype E D mk t hs (htt hs), font_program_stream0 hne' ho]
    · intro ho
      rw [subset_font_program_truetype E D mk t hs (htt hs),
        font_program_extract_cff_truetype hne' (htt hs) ho]
  · cases hs : t.m_can_subset with
    | false =>
      unfold subset_font_program JAG_PRECONDITION
      simp [hs]
    | true =>
      rw [subset_font_program_truetype E D mk t hs (htt hs)]
      cases hfp : font_program E t 0 options with
      | error e =>
        intro hEq
        have : e = .internal_error := by
          simpa using hEq
        rw [this] at hfp
        exact font_program_ne_internal_error E t 0 options hfp
      | ok prg =>
        show (match mk prg codepoints (!(decide (options &&& D ≠ 0))) with
          | .error code => (.error (.ttfont code) : Except Failure IStreamInput)
          | .ok mem_out => .ok mem_out) ≠ .error .internal_error
        generalize mk prg codepoints (!(decide (options &&& D ≠ 0))) = r
        cases r with
        | error code =>
          intro hEq
          cases hEq
        | ok out =>
          intro hEq
          cases hEq

/-- Witness of the amended C9 on the sample TrueType face, with
`EXTRACT_CFF = 2`, `DONT_INCLUDE_CMAP = 1`, the option `DONT_INCLUDE_CMAP` and a
subsetter that returns its input: the call yields stream 0. -/
theorem subset_font_program_dispatch_witness :
    TypefaceImpl.ctor 2 sampleLib sampleArgs = .ok sampleTypeface ∧
    sampleTypeface.m_can_subset = true ∧
    subset_font_program 2 1 sampleSubsetter sampleTypeface [72, 120] 1 =
      .ok [1, 2, 3, 4, 5, 6, 7, 8, 9, 10] ∧
    subset_font_program 2 1 sampleSubsetter sampleTypeface [72, 120] 1 ≠
      .error .internal_error :=
  ⟨by rfl, rfl,
    ((subset_font_program_dispatch 2 1 sampleSubsetter sampleLib sampleArgs sampleTypeface
      (by rfl) [72, 120] 1).2.1 rfl).2.1 (by decide),
    (subset_font_program_dispatch 2 1 sampleSubsetter sampleLib sampleArgs sampleTypeface
      (by rfl) [72, 120] 1).2.2⟩

/-! ## Format detection -/

/-- C10: every constructed typeface has type TrueType or OpenType-CFF, never
Type1 or Uninitialized, and its face is an sfnt container, so neither
`codepoint_to_gid` nor `char_horizontal_advance` reaches its not-implemented
branch on it; `detect_type`, entered with the type Uninitialized, succeeds only
with one of the two sfnt kinds and fails with the unknown format error on every
face that is not an sfnt container. -/
theorem detect_type_only_sfnt_kinds (E : Nat) (ftlib : FT_Library) (args : FTOpenArgs)
    (t : TypefaceImpl) (h : TypefaceImpl.ctor E ftlib args = .ok t) :
    (t.m_type = .FACE_TRUE_TYPE ∨ t.m_type = .FACE_OPEN_TYPE_CFF) ∧
    t.m_type ≠ .FACE_TYPE_1 ∧ t.m_type ≠ .FACE_UNINITIALIZED ∧
    t.m_face.is_sfnt = true ∧
    (∀ codepoint, codepoint_to_gid t codepoint ≠ .error .tbd ∧
      char_horizontal_advance t codepoint ≠ .error .tbd) ∧
    (∀ s s1 : TypefaceImpl, s.m_type = .FACE_UNINITIALIZED → detect_type s = .ok s1 →
      s1.m_type = .FACE_TRUE_TYPE ∨ s1.m_type = .FACE_OPEN_TYPE_CFF) ∧
    (∀ s : TypefaceImpl, s.m_type = .FACE_UNINITIALIZED → s.m_face.is_sfnt = false →
      detect_type s = .error .unknown_font_format) := by
  obtain ⟨_, _, _, hk, hsf, _⟩ := ctor_summary h
  have hadv : ∀ gid, gid_horizontal_advance t gid ≠ .error .tbd := by
    intro gid
    unfold gid_horizontal_advance
    cases hl : t.m_face.load_glyph gid with
    | error code => simp [CHECK_FT, hl]
    | ok glyph => simp [CHECK_FT, hl]
  refine ⟨hk, ?_, ?_, hsf, ?_, ?_, ?_⟩
  · rcases hk with hk | hk <;> rw [hk] <;> decide
  · rcases hk with hk | hk <;> rw [hk] <;> decide
  · intro c
    rcases hk with hk | hk
    · constructor
      · simp [codepoint_to_gid, hk]
      · simp only [char_horizontal_advance, hk]
        exact hadv _
    · constructor
      · simp [codepoint_to_gid, hk]
      · simp only [char_horizontal_advance, hk]
        exact hadv _
  · intro s s1 h0 hd
    exact (detect_type_frame hd h0).1
  · intro s h0 hs
    exact detect_type_not_sfnt h0 hs

/-- Witness of C10 on the sample TrueType face, together with the failure of
`detect_type` on the face that is not an sfnt container. -/
theorem detect_type_only_sfnt_kinds_witness :
    TypefaceImpl.ctor 2 sampleLib sampleArgs = .ok sampleTypeface ∧
    (sampleTypeface.m_type = .FACE_TRUE_TYPE ∨
      sampleTypeface.m_type = .FACE_OPEN_TYPE_CFF) ∧
    detect_type (TypefaceImpl.members_init sampleArgs nonSfntFace) =
      .error .unknown_font_format :=
  ⟨by rfl,
    (detect_type_only_sfnt_kinds 2 sampleLib sampleArgs sampleTypeface (by rfl)).1,
    (detect_type_only_sfnt_kinds 2 sampleLib sampleArgs sampleTypeface (by rfl)).2.2.2.2.2.2
      (TypefaceImpl.members_init sampleArgs nonSfntFace) rfl rfl⟩

end Jag
